import Mathlib

/-!
Verification of the connection-declaration and dataset-reference-resolution
subsystem of `pipe_base` (files `config.py`, `configOverrides.py`), as a
shallow embedding in Lean.  Python mappings become association lists (keyed
by `String`, preserving insertion order), fallible operations return
`Except PyErr`, and object identity (where a claim depends on it) is modelled
by explicit allocation counters.
-/

namespace PipeBase

/-- Python exceptions raised by the embedded code.  Each constructor stands
for one `raise` site (or one failure mode of an attribute / dict access);
payloads carry the data the corresponding Python exception carries. -/
inductive PyErr where
  /-- `ScalarError(key, numDataIds)` from `config.py` (subclass of TypeError). -/
  | scalarError (key : String) (numDataIds : Nat)
  /-- TypeError: missing or non-iterable `dimensions` attribute
  (`PipelineTaskConnectionsMetaclass.__new__`). -/
  | typeErrorDimensions
  /-- TypeError: templated attribute names but no `defaultTemplates` provided. -/
  | typeErrorNoDefaultTemplates
  /-- TypeError: default template keys were not provided (dead branch). -/
  | typeErrorMissingTemplateKeys
  /-- AttributeError for a missing attribute. -/
  | attributeError (name : String)
  /-- KeyError for a missing dict key. -/
  | keyError (key : String)
  /-- NameError: PipelineTaskConfig must be defined with connections class. -/
  | nameErrorNoConnectionsClass
  /-- ValueError: can only assign a PipelineTaskConnectionClass to
  `pipelineConnections`. -/
  | valueErrorNotConnectionsClass
  /-- ValueError: PipelineTaskConnections must be instantiated with a
  PipelineTaskConfig instance. -/
  | valueErrorNeedConfig
  /-- `pexExceptions.RuntimeError` wrapping a failed literal parse of a value
  override; carries the offending text (`configOverrides.py` line 135). -/
  | parseError (text : String)
  /-- `pexExceptions.RuntimeError`: dataset name substitution used on a config
  that is not a `PipelineTaskConfig` (`configOverrides.py` lines 140-143). -/
  | namesDictOnNonPipelineConfig
  /-- Type/validation error from the external `pex.config` field-assignment
  contract. -/
  | fieldTypeMismatch (field : String)
deriving DecidableEq, Repr

/-- Ordered-association-list lookup: the embedding of Python `dict`
subscript / `getattr` lookup (first matching key wins; keys of a Python dict
are unique, so this agrees with dict semantics). -/
def alookup {κ α : Type} [DecidableEq κ] : List (κ × α) → κ → Option α
  | [], _ => none
  | p :: rest, k => if p.1 = k then some p.2 else alookup rest k

/-- Embedding of Python `dict` assignment `d[k] = v`: replaces the value in
place when the key is present (keeping its position, as Python dicts do) and
appends otherwise. -/
def upsert {κ α : Type} [DecidableEq κ] (l : List (κ × α)) (k : κ) (v : α) :
    List (κ × α) :=
  if (alookup l k).isSome then
    l.map (fun p => if p.1 = k then (k, v) else p)
  else l ++ [(k, v)]

/-- Worker for `formatterParse`; `fuel` only makes the recursion structural
(each step consumes at least one character, so `fuel = length` is enough and
the fuel-exhausted arm is unreachable from `formatterParse`). -/
def formatterParseGo : Nat → List Char → List Char → List (String × Option String)
  | _, [], lit => if lit.isEmpty then [] else [(String.mk lit.reverse, none)]
  | 0, cs, lit => [(String.mk (lit.reverse ++ cs), none)]
  | n + 1, '{' :: rest, lit =>
    let fld := rest.takeWhile (fun c => c ≠ '}')
    let rest2 := (rest.dropWhile (fun c => c ≠ '}')).drop 1
    (String.mk lit.reverse, some (String.mk fld)) :: formatterParseGo n rest2 []
  | n + 1, c :: rest, lit => formatterParseGo n rest (c :: lit)

/-- Embedding of `string.Formatter().parse` on well-formed templates (no brace
escapes, conversions, or format specs, which none of the connection name
templates use): yields the (literal text, optional field name) pairs; an empty
string yields nothing, a string with no placeholder yields exactly one pair
with no field name — exactly the shape the metaclass iterates over. -/
def formatterParse (s : String) : List (String × Option String) :=
  formatterParseGo s.length s.toList []

/-- Embedding of `str.format(**vals)` over the same template language:
substitute each field from `vals`, `KeyError` on a missing key, as in Python. -/
def formatParts : List (String × Option String) → List (String × String) →
    String → Except PyErr String
  | [], _, acc => .ok acc
  | (lit, none) :: rest, vals, acc => formatParts rest vals (acc ++ lit)
  | (lit, some k) :: rest, vals, acc =>
    match alookup vals k with
    | none => .error (.keyError k)
    | some v => formatParts rest vals (acc ++ lit ++ v)

/-- `s.format(**vals)` for a template string `s`. -/
def formatMap (s : String) (vals : List (String × String)) : Except PyErr String :=
  formatParts (formatterParse s) vals ""

/-- The five connection roles, i.e. which of the `BaseConnection` dataclass
subclasses (`Input`, `AuxiliaryInput`, `Output`, `InitInput`, `InitOutput`)
a declared connection was constructed from. -/
inductive ConnRole where
  | input
  | auxiliaryInput
  | output
  | initInput
  | initOutput
deriving DecidableEq, Repr

/-- The dataclass fields of a connection (`BaseConnection` plus the
`dimensions` field contributed by `DimensionedConnection`, empty for the Init
roles), together with the role recorded by the concrete subclass used.
`checkFunction` is an opaque callable modelled by an optional identifier. -/
structure Connection where
  role : ConnRole
  name : String
  storageClass : String
  differLoad : Bool := false
  multiple : Bool := false
  checkFunction : Option Nat := none
  dimensions : List String := []
deriving DecidableEq, Repr

/-- Attribute access for the `bool`-valued attributes of a frozen connection
dataclass: `multiple` and `differLoad` are the only bool fields it defines, so
any other attribute name raises `AttributeError`, as in Python.  Used to embed
the expression `attribute.multi` in `buildDatasetRefs` faithfully. -/
def connGetBool (c : Connection) (attr : String) : Except PyErr Bool :=
  if attr = "multiple" then .ok c.multiple
  else if attr = "differLoad" then .ok c.differLoad
  else .error (.attributeError attr)

/-- The connection-collecting part of `PipelineTaskConnectionDict` (the
specialized namespace used while a connections class body runs): the five
role-index lists and the `allConnections` ordered mapping.  The non-connection
entries of the namespace (`dimensions`, `defaultTemplates`) are threaded to
the metaclass separately below. -/
structure ConnDict where
  inputs : List String := []
  auxiliaryInputs : List String := []
  outputs : List String := []
  initInputs : List String := []
  initOutputs : List String := []
  allConnections : List (String × Connection) := []
deriving DecidableEq, Repr

/-- The empty namespace prepared by `__prepare__`. -/
def ConnDict.empty : ConnDict := {}

/-- `PipelineTaskConnectionDict.__setitem__` for a connection value: append
the attribute name to the role list matching the value's class, record the
declaring name (`varName`, which in this embedding is the key the connection
is stored under) and insert into `allConnections`. -/
def ConnDict.setItem (d : ConnDict) (name : String) (c : Connection) : ConnDict :=
  { d with
    inputs := if c.role = .input then d.inputs ++ [name] else d.inputs
    auxiliaryInputs :=
      if c.role = .auxiliaryInput then d.auxiliaryInputs ++ [name] else d.auxiliaryInputs
    outputs := if c.role = .output then d.outputs ++ [name] else d.outputs
    initInputs := if c.role = .initInput then d.initInputs ++ [name] else d.initInputs
    initOutputs := if c.role = .initOutput then d.initOutputs ++ [name] else d.initOutputs
    allConnections := upsert d.allConnections name c }

/-- A finalized connections class: the members
`PipelineTaskConnectionsMetaclass.__new__` leaves on the class. -/
structure PipelineTaskConnectionsClass where
  dimensions : List String
  inputs : List String
  auxiliaryInputs : List String
  outputs : List String
  initInputs : List String
  initOutputs : List String
  allConnections : List (String × Connection)
  defaultTemplates : Option (List (String × String))
deriving DecidableEq, Repr

/-- Assemble the class members from the class-body namespace. -/
def mkConnectionsClass (reg : ConnDict) (dims : List String)
    (dts : Option (List (String × String))) : PipelineTaskConnectionsClass :=
  ⟨dims, reg.inputs, reg.auxiliaryInputs, reg.outputs, reg.initInputs,
    reg.initOutputs, reg.allConnections, dts⟩

/-- `PipelineTaskConnectionsMetaclass.__new__` (config.py lines 156-185).
`name` is the class name; `reg` holds the collected connections;
`dimensions` / `defaultTemplates` are the corresponding namespace entries if
the class body assigned them.  Faithful points to note:
* line 172 adds the whole tuple yielded by `Formatter.parse` to
  `allTemplates` (not the field name), so `allTemplates` is non-empty whenever
  any connection has a non-empty `name`, templated or not;
* line 177 guards the remaining checks with `len(allTemplates) < 0`, which is
  never true, so the missing-key check and the placeholder/attribute-collision
  check are dead code (embedded here under the same impossible guard; were the
  branch ever entered, the tuple-vs-string set difference would be all of
  `allTemplates`, and `set.inserset` does not exist, hence AttributeError);
* `dimensions` is coerced with `set(...)`, modelled by `dedup` (the
  non-iterable TypeError arm is outside the typed embedding). -/
def connectionsMetaclassNew (name : String) (reg : ConnDict)
    (dimensions : Option (List String))
    (defaultTemplates : Option (List (String × String))) :
    Except PyErr PipelineTaskConnectionsClass :=
  if name = "PipelineTaskConnections" then
    .ok (mkConnectionsClass reg (dimensions.getD []).dedup defaultTemplates)
  else
    match dimensions with
    | none => .error .typeErrorDimensions
    | some dims =>
      let allTemplates :=
        ((reg.allConnections.map (fun p => formatterParse p.2.name)).flatten).dedup
      if 0 < allTemplates.length ∧ defaultTemplates = none then
        .error .typeErrorNoDefaultTemplates
      else if allTemplates.length < 0 then
        match defaultTemplates with
        | none => .error (.keyError "defaultTemplates")
        | some _ts =>
          if allTemplates ≠ [] then .error .typeErrorMissingTemplateKeys
          else .error (.attributeError "inserset")
      else
        .ok (mkConnectionsClass reg dims.dedup defaultTemplates)

/-- A task configuration instance as seen by this subsystem: whether it is an
instance of `PipelineTaskConfig` (for the two `isinstance` checks), and the
current string values of the fields of its nested `connections` sub-object
(one per connection attribute and one per template key, synthesized by
`PipelineTaskConfigMeta`). -/
structure TaskConfigInstance where
  isPipelineTaskConfig : Bool
  connections : List (String × String)
deriving DecidableEq, Repr

/-- `getattr(config.connections, name)`: read a field of the nested
`connections` sub-object; AttributeError when the field does not exist. -/
def cfgGetattr (cfg : TaskConfigInstance) (name : String) : Except PyErr String :=
  match alookup cfg.connections name with
  | some v => .ok v
  | none => .error (.attributeError name)

/-- Embedding of a Python dict comprehension `{p[0]: f(p[0]) for p in l}`
whose value expression can fail: evaluated left to right, first failure
propagates. -/
def mapValsM {α : Type} (f : String → Except PyErr String) :
    List (String × α) → Except PyErr (List (String × String))
  | [] => .ok []
  | p :: rest =>
    match f p.1 with
    | .error e => .error e
    | .ok v =>
      match mapValsM f rest with
      | .error e => .error e
      | .ok tail => .ok ((p.1, v) :: tail)

/-- The `templateValues` dict built by `PipelineTaskConnections.__init__`
(config.py lines 194-195): one entry per `defaultTemplates` key, read from the
configuration's nested `connections` sub-object (`getattr(self,
'defaultTemplates', {})` is modelled by `Option.getD`). -/
def templateValuesOf (cls : PipelineTaskConnectionsClass)
    (cfg : TaskConfigInstance) : Except PyErr (List (String × String)) :=
  mapValsM (cfgGetattr cfg) (cls.defaultTemplates.getD [])

/-- The value expression of the `_nameOverrides` dict comprehension
(config.py lines 196-197): read the *current* value of the configuration's
name field for this attribute and format it with the template values. -/
def nameResolver (cfg : TaskConfigInstance)
    (templateValues : List (String × String)) (name : String) :
    Except PyErr String :=
  match cfgGetattr cfg name with
  | .error e => .error e
  | .ok raw => formatMap raw templateValues

/-- A constructed `PipelineTaskConnections` instance: the owning class, the
borrowed configuration, and the `_nameOverrides` dict. -/
structure ConnectionsInstance where
  cls : PipelineTaskConnectionsClass
  config : TaskConfigInstance
  nameOverrides : List (String × String)
deriving DecidableEq, Repr

/-- `PipelineTaskConnections.__init__` (config.py lines 189-197): reject a
missing or non-`PipelineTaskConfig` configuration with ValueError, build
`templateValues` from the config's `connections` sub-object, then build
`_nameOverrides` by formatting, for every key of `allConnections`, the
*current* value of the config's corresponding name field (not the
descriptor's declared default) with `templateValues`. -/
def connectionsInit (cls : PipelineTaskConnectionsClass)
    (config : Option TaskConfigInstance) : Except PyErr ConnectionsInstance :=
  match config with
  | none => .error .valueErrorNeedConfig
  | some cfg =>
    if cfg.isPipelineTaskConfig = false then .error .valueErrorNeedConfig
    else
      match templateValuesOf cls cfg with
      | .error e => .error e
      | .ok templateValues =>
        match mapValsM (nameResolver cfg templateValues) cls.allConnections with
        | .error e => .error e
        | .ok nameOverrides => .ok ⟨cls, cfg, nameOverrides⟩

/-- `getattr(self, attributeName)` on a connections instance for a connection
attribute: the descriptor protocol (`BaseConnection.__get__`) returns a copy
of the class-level connection whose `name` is replaced by
`_nameOverrides[varName]` (`varName` equals the attribute name, recorded by
the registry).  The per-instance identity cache of `__get__` does not change
the returned field values and is modelled separately by `connectionGet`. -/
def ConnectionsInstance.getConn (self : ConnectionsInstance)
    (attrName : String) : Except PyErr Connection :=
  match alookup self.cls.allConnections attrName with
  | none => .error (.attributeError attrName)
  | some c =>
    match alookup self.nameOverrides attrName with
    | none => .error (.keyError attrName)
    | some nm => .ok { c with name := nm }

/-- An opaque dataset reference as provided by a quantum: it exposes a data
identifier. -/
structure DatasetRef where
  dataId : Nat
deriving DecidableEq, Repr

/-- The quantum contract consumed by `buildDatasetRefs`: a mapping from
dataset-type name to the ordered list of references. -/
structure Quantum where
  predictedInputs : List (String × List DatasetRef)
deriving DecidableEq, Repr

/-- The value stored for one attribute in the refs mappings built by
`buildDatasetRefs`: a scalar connection stores the single unwrapped reference,
a `multiple` connection stores the whole list. -/
inductive RefValue where
  | single (r : DatasetRef)
  | many (rs : List DatasetRef)
deriving DecidableEq, Repr

/-- Likewise for the dataId mappings. -/
inductive IdValue where
  | single (i : Nat)
  | many (ids : List Nat)
deriving DecidableEq, Repr

/-- `lsst.pipe.base.Struct` restricted to the two members `buildDatasetRefs`
constructs it with. -/
structure Struct (α : Type) where
  inputs : List (String × α)
  outputs : List (String × α)
deriving DecidableEq, Repr

/-- The inner loop of `buildDatasetRefs` (config.py lines 206-216) over one
list of attribute names, building the refs and ids mappings in declaration
order.  `multiAttr` is the attribute name the loop reads off the connection to
decide cardinality: the source reads `attribute.multi` (line 210); the
dataclass field is `multiple`. -/
def processNames (multiAttr : String) (self : ConnectionsInstance)
    (quantum : Quantum) :
    List String → Except PyErr (List (String × RefValue) × List (String × IdValue))
  | [] => .ok ([], [])
  | attributeName :: rest => do
    let connAttr ← self.getConn attributeName
    let quantumInputRefs ←
      match alookup quantum.predictedInputs connAttr.name with
      | none => .error (.keyError connAttr.name)
      | some rs => pure rs
    let quantumInputIds := quantumInputRefs.map (fun r => r.dataId)
    let multi ← connGetBool connAttr multiAttr
    if multi = false then
      match quantumInputRefs, quantumInputIds with
      | [r], [i] => do
        let (refs, ids) ← processNames multiAttr self quantum rest
        pure ((attributeName, .single r) :: refs, (attributeName, .single i) :: ids)
      | _, _ => .error (.scalarError attributeName quantumInputRefs.length)
    else do
      let (refs, ids) ← processNames multiAttr self quantum rest
      pure ((attributeName, .many quantumInputRefs) :: refs,
            (attributeName, .many quantumInputIds) :: ids)

/-- `PipelineTaskConnections.buildDatasetRefs` (config.py lines 199-218): the
input-like roles are processed in their combined declaration order
(`itertools.chain(self.inputs, self.auxiliaryInputs)`), then the outputs; the
result is the pair of `Struct`s of refs and ids.  The `butler` argument is
unused by the source and omitted.  As in the source, the cardinality test
reads the attribute `multi`. -/
def buildDatasetRefs (self : ConnectionsInstance) (quantum : Quantum) :
    Except PyErr (Struct RefValue × Struct IdValue) := do
  let (inputDatasetRefs, inputDataIds) ←
    processNames "multi" self quantum (self.cls.inputs ++ self.cls.auxiliaryInputs)
  let (outputDatasetRefs, outputDataIds) ←
    processNames "multi" self quantum self.cls.outputs
  pure (⟨inputDatasetRefs, outputDatasetRefs⟩, ⟨inputDataIds, outputDataIds⟩)

/-- The reference builder with the cardinality test corrected to read the
declared dataclass field `multiple` — the behavior described by
`ScalarError`'s docstring and by the spec; the source's `attribute.multi`
names a field no connection class defines. -/
def buildDatasetRefsIntended (self : ConnectionsInstance) (quantum : Quantum) :
    Except PyErr (Struct RefValue × Struct IdValue) := do
  let (inputDatasetRefs, inputDataIds) ←
    processNames "multiple" self quantum (self.cls.inputs ++ self.cls.auxiliaryInputs)
  let (outputDatasetRefs, outputDataIds) ←
    processNames "multiple" self quantum self.cls.outputs
  pure (⟨inputDatasetRefs, outputDatasetRefs⟩, ⟨inputDataIds, outputDataIds⟩)

/-! ### Object identity for `BaseConnection.__get__` -/

/-- The object returned by `BaseConnection.__get__` for an instance: the
specialized connection record together with its Python object identity,
modelled by an allocation number. -/
structure SpecializedConnection where
  conn : Connection
  objId : Nat
deriving DecidableEq, Repr

/-- The `_objCache` dict stored on the class-level descriptor (keyed by
`id(inst)`), together with an allocation counter supplying fresh object
identities. -/
structure ObjCache where
  cache : List (Nat × SpecializedConnection)
  nextObjId : Nat
deriving DecidableEq, Repr

/-- `BaseConnection.__get__` (config.py lines 77-86) for an instance access:
copy every dataclass field of the class-level connection, replace `name` by
`inst._nameOverrides[self.varName]` (KeyError if absent), construct the new
specialized object — `dict.setdefault` evaluates its default argument
unconditionally, so an object is allocated on every access — and return
`self._objCache.setdefault(id(inst), newObj)`: the cached object when
`id(inst)` is already a key, otherwise the new object, which is also stored.
`nameOverrides` are those of the accessing instance; `instId` is `id(inst)`. -/
def connectionGet (classConn : Connection) (varName : String)
    (nameOverrides : List (String × String)) (instId : Nat) (st : ObjCache) :
    Except PyErr (SpecializedConnection × ObjCache) :=
  match alookup nameOverrides varName with
  | none => .error (.keyError varName)
  | some nm =>
    let newObj : SpecializedConnection := ⟨{ classConn with name := nm }, st.nextObjId⟩
    match alookup st.cache instId with
    | some cached => .ok (cached, ⟨st.cache, st.nextObjId + 1⟩)
    | none => .ok (newObj, ⟨st.cache ++ [(instId, newObj)], st.nextObjId + 1⟩)

/-- Cache states reachable from `st` by a sequence of successful `__get__`
accesses; `novOf i` gives the (fixed) `_nameOverrides` dict of the instance
whose `id` is `i`. -/
inductive ReachedFrom (classConn : Connection) (varName : String)
    (novOf : Nat → List (String × String)) : ObjCache → ObjCache → Prop where
  | refl (st : ObjCache) : ReachedFrom classConn varName novOf st st
  | step {st st' st'' : ObjCache} {o : SpecializedConnection} {i : Nat} :
      ReachedFrom classConn varName novOf st st' →
      connectionGet classConn varName (novOf i) i st' = .ok (o, st'') →
      ReachedFrom classConn varName novOf st st''

/-- The state of a freshly created `_objCache` (created empty at the first
access, when `hasattr(self, '_objCache')` is false). -/
def ObjCache.init : ObjCache := ⟨[], 0⟩

/-- Cache states reachable from the initial empty cache. -/
def Reached (classConn : Connection) (varName : String)
    (novOf : Nat → List (String × String)) (st : ObjCache) : Prop :=
  ReachedFrom classConn varName novOf ObjCache.init st

/-! ### `PipelineTaskConfigMeta` -/

/-- One entry of the synthesized `configConnectionsNamespace`: either a
`pexConfig.Field(dtype=str, default=...)` (the doc strings are not modelled),
or the connections class itself, stored under the key `connections`
(config.py line 241). -/
inductive NamespaceEntry where
  | strField (default : String)
  | connectionsClassRef
deriving DecidableEq, Repr

/-- The value passed as the `pipelineConnections` class keyword argument:
either an actual connections class or some class that is not a subclass of
`PipelineTaskConnections`. -/
inductive ConfigMetaArg where
  | connections (cls : PipelineTaskConnectionsClass)
  | notAConnectionsClass
deriving DecidableEq, Repr

/-- `PipelineTaskConfigMeta.__new__` (config.py lines 222-249), returning the
synthesized `configConnectionsNamespace` for the nested `Connections` config
class.  The guard compares the class name against the string
`"NewPipelineTaskConfig"` (note: the base class actually declared in the
source is named `PipelineTaskConfig`, so it does not match the guard); for
any other name it requires the `pipelineConnections` keyword (NameError),
requires it to be a connections class (ValueError), then synthesizes one
str-typed field per `allConnections` entry defaulting to the descriptor's
declared `name`, one str-typed field per `defaultTemplates` key defaulting to
the template's default, and finally stores the connections class under the
key `connections`. -/
def pipelineTaskConfigMetaNew (name : String)
    (pipelineConnections : Option ConfigMetaArg) :
    Except PyErr (List (String × NamespaceEntry)) :=
  if name = "NewPipelineTaskConfig" then .ok []
  else
    match pipelineConnections with
    | none => .error .nameErrorNoConnectionsClass
    | some .notAConnectionsClass => .error .valueErrorNotConnectionsClass
    | some (.connections cls) =>
      let ns : List (String × NamespaceEntry) :=
        cls.allConnections.foldl
          (fun ns p => upsert ns p.1 (.strField p.2.name)) []
      let ns :=
        match cls.defaultTemplates with
        | none => ns
        | some ts => ts.foldl (fun ns p => upsert ns p.1 (.strField p.2)) ns
      .ok (upsert ns "connections" .connectionsClassRef)

/-! ### `ConfigOverrides` -/

/-- Python values that can sit in a config field or be supplied as an
override value.  Container and float literals are outside the modelled
fragment. -/
inductive CVal where
  | intVal (n : Int)
  | strVal (s : String)
  | boolVal (b : Bool)
  | noneVal
deriving DecidableEq, Repr

/-- The declared `dtype` of a `pex.config` field, for the fragment used. -/
inductive CType where
  | intT
  | strT
  | boolT
deriving DecidableEq, Repr

/-- Whether the external field-assignment contract accepts a value for a
declared type (`None` is accepted everywhere, standing for optional
fields). -/
def matchesType : CVal → CType → Bool
  | .noneVal, _ => true
  | .intVal _, .intT => true
  | .strVal _, .strT => true
  | .boolVal _, .boolT => true
  | _, _ => false

/-- One field of a config object: declared type and current value. -/
structure ConfigField where
  dtype : CType
  value : CVal
deriving DecidableEq, Repr

/-- A config object: its `_fields` and its sub-config objects (reachable by
plain attribute lookup, as in the dotted-path walk of `applyTo`). -/
inductive ConfigNode where
  | mk (fields : List (String × ConfigField)) (subs : List (String × ConfigNode))

/-- Embedding of `str.split('.')`. -/
def splitDotsGo : List Char → List Char → List String
  | [], cur => [String.mk cur.reverse]
  | '.' :: rest, cur => String.mk cur.reverse :: splitDotsGo rest []
  | c :: rest, cur => splitDotsGo rest (c :: cur)

/-- `field.split('.')` for a dotted path. -/
def splitDots (s : String) : List String := splitDotsGo s.toList []

/-- Decimal digit run to a number; `none` when empty or a non-digit occurs. -/
def digitsToNatGo : List Char → Nat → Option Nat
  | [], acc => some acc
  | c :: rest, acc =>
    if c.isDigit then digitsToNatGo rest (acc * 10 + (c.toNat - 48)) else none

/-- Parse a non-empty decimal digit run. -/
def digitsToNat : List Char → Option Nat
  | [] => none
  | cs => digitsToNatGo cs 0

/-- Parse a (possibly negated) decimal integer literal. -/
def parseIntLit (s : String) : Option Int :=
  match s.toList with
  | '-' :: rest => (digitsToNat rest).map (fun n => -(n : Int))
  | cs => (digitsToNat cs).map (fun n => (n : Int))

/-- Parse a single-quoted string literal. -/
def parseStrLit (s : String) : Option String :=
  match s.toList with
  | '\'' :: rest =>
    if rest ≠ [] ∧ rest.getLast? = some '\'' then
      some (String.mk rest.dropLast)
    else none
  | _ => none

/-- Embedding of `ast.literal_eval` on the modelled fragment: `None`, the two
booleans, decimal integers and single-quoted strings; every other text fails
to parse (floats, containers, underscored or based integer literals, and
surrounding whitespace are outside the fragment). -/
def literalEval (s : String) : Option CVal :=
  if s = "None" then some .noneVal
  else if s = "True" then some (.boolVal true)
  else if s = "False" then some (.boolVal false)
  else
    match parseIntLit s with
    | some n => some (.intVal n)
    | none =>
      match parseStrLit s with
      | some t => some (.strVal t)
      | none => none

/-- The `getattr` chain of `applyTo` (configOverrides.py lines 120-122): walk
the parent path through sub-config objects, failing with AttributeError on a
missing segment. -/
def getSub : List String → ConfigNode → Except PyErr ConfigNode
  | [], n => .ok n
  | a :: rest, .mk _fields subs =>
    match alookup subs a with
    | some sub => getSub rest sub
    | none => .error (.attributeError a)

/-- Apply `f` to the config object at the end of the parent path and rebuild
the tree (the functional rendering of mutating the sub-object in place). -/
def setAtPath : List String → ConfigNode → (ConfigNode → Except PyErr ConfigNode) →
    Except PyErr ConfigNode
  | [], n, f => f n
  | a :: rest, .mk fields subs, f =>
    match alookup subs a with
    | none => .error (.attributeError a)
    | some sub =>
      (setAtPath rest sub f).map (fun sub' =>
        .mk fields (subs.map (fun p => if p.1 = a then (a, sub') else p)))

/-- `setattr(obj, leaf, v)` under the external field-assignment contract:
the field must exist and the value must match its declared type, otherwise a
type/validation error propagates. -/
def setattrField (n : ConfigNode) (leaf : String) (v : CVal) :
    Except PyErr ConfigNode :=
  match n with
  | .mk fields subs =>
    match alookup fields leaf with
    | none => .error (.keyError leaf)
    | some fld =>
      if matchesType v fld.dtype then
        .ok (.mk (fields.map (fun p => if p.1 = leaf then (leaf, ⟨fld.dtype, v⟩) else p))
          subs)
      else .error (.fieldTypeMismatch leaf)

/-- The string-coercion step (configOverrides.py lines 129-135): when the
supplied value is textual and the leaf field's declared type is not textual,
parse the text as a literal, wrapping a parse failure in the user-friendly
error that names the offending text; otherwise pass the value through
untouched. -/
def coerceValue (value : CVal) (dtype : CType) : Except PyErr CVal :=
  match value with
  | .strVal s =>
    if dtype ≠ .strT then
      match literalEval s with
      | some w => .ok w
      | none => .error (.parseError s)
    else .ok value
  | _ => .ok value

/-- The `'value'` branch of `applyTo` (configOverrides.py lines 116-138):
split the dotted path, walk the parent path, read the leaf's declared type
from `obj._fields` (KeyError if the leaf is not a field), coerce a textual
value for a non-textual field, then assign. -/
def applyValueOverride (root : ConfigNode) (fieldPath : String) (value : CVal) :
    Except PyErr ConfigNode :=
  let parts := splitDots fieldPath
  setAtPath parts.dropLast root (fun obj =>
    match obj with
    | .mk fields _subs =>
      match alookup fields (parts.getLastD "") with
      | none => .error (.keyError (parts.getLastD ""))
      | some fld => do
        let v ← coerceValue value fld.dtype
        setattrField obj (parts.getLastD "") v)

/-- A full task configuration as `applyTo` sees it: whether it is an instance
of `PipelineTaskConfig`, and its tree of fields and sub-configs (for a
`PipelineTaskConfig` the synthesized `connections` sub-object is one of the
subs). -/
structure FullConfig where
  isPipelineTaskConfig : Bool
  root : ConfigNode

/-- Modelled from the spec: `config.formatTemplateNames(override)` is called
by `ConfigOverrides.applyTo` (configOverrides.py line 144) but the method is
not defined anywhere in the sources under review.  Per the spec (section 4.6)
it forwards the substitution mapping by writing each key/value into the
matching template field of the nested `connections` sub-object; a key with no
matching field fails like any field assignment. -/
def formatTemplateNames (config : FullConfig) (nameDict : List (String × String)) :
    Except PyErr FullConfig :=
  nameDict.foldlM
    (fun c p =>
      (setAtPath ["connections"] c.root
        (fun obj => setattrField obj p.1 (.strVal p.2))).map
        (fun r => { c with root := r }))
    config

/-- One queued override: the tagged tuples appended by `addFileOverride`,
`addValueOverride` and `addDatasetNameSubstitution`. -/
inductive Override where
  | file (filename : String)
  | value (field : String) (v : CVal)
  | namesDict (nameDict : List (String × String))

/-- One iteration of the `applyTo` loop (configOverrides.py lines 113-144).
`load` is the external `config.load` file-loading mechanism, opaque to this
core; any failure it reports propagates unmodified. -/
def applyOne (load : FullConfig → String → Except PyErr FullConfig)
    (config : FullConfig) : Override → Except PyErr FullConfig
  | .file f => load config f
  | .value fieldPath v =>
    (applyValueOverride config.root fieldPath v).map
      (fun r => { config with root := r })
  | .namesDict d =>
    if config.isPipelineTaskConfig then formatTemplateNames config d
    else .error .namesDictOnNonPipelineConfig

/-- The `applyTo` loop over a list of queued overrides, in order; a failure
stops the replay (the configuration keeps the effect of the preceding
entries, which the functional result drops together with the error). -/
def applyList (load : FullConfig → String → Except PyErr FullConfig) :
    List Override → FullConfig → Except PyErr FullConfig
  | [], config => .ok config
  | ov :: rest, config => (applyOne load config ov).bind (applyList load rest)

/-- The override applier object: its single piece of state, the ordered
`_overrides` queue. -/
structure ConfigOverrides where
  overrides : List Override

/-- `ConfigOverrides()`: the queue starts empty. -/
def ConfigOverrides.new : ConfigOverrides := ⟨[]⟩

/-- `addFileOverride`: append a file entry. -/
def ConfigOverrides.addFileOverride (self : ConfigOverrides) (filename : String) :
    ConfigOverrides := ⟨self.overrides ++ [.file filename]⟩

/-- `addValueOverride`: append a value entry. -/
def ConfigOverrides.addValueOverride (self : ConfigOverrides) (field : String)
    (value : CVal) : ConfigOverrides := ⟨self.overrides ++ [.value field value]⟩

/-- `addDatasetNameSubstitution`: append a substitution entry. -/
def ConfigOverrides.addDatasetNameSubstitution (self : ConfigOverrides)
    (nameDict : List (String × String)) : ConfigOverrides :=
  ⟨self.overrides ++ [.namesDict nameDict]⟩

/-- `ConfigOverrides.applyTo(config)` (configOverrides.py lines 102-144):
replay the queue against the configuration.  The pair's second component is
the state of the applier object when the call returns (normally or with an
exception): the body only reads `self._overrides` and never assigns to it, so
the object state passes through unchanged. -/
def ConfigOverrides.applyTo (load : FullConfig → String → Except PyErr FullConfig)
    (self : ConfigOverrides) (config : FullConfig) :
    Except PyErr FullConfig × ConfigOverrides :=
  (applyList load self.overrides config, self)

/-! ### Invariant for the `__get__` cache -/

/-- Invariant of the `_objCache` states produced by `__get__` accesses: every
cached object has an identity below the allocation counter and holds the
specialization (for its instance's name overrides) of the class-level
connection, and distinct cache entries have distinct object identities. -/
def CacheInv (classConn : Connection) (varName : String)
    (novOf : Nat → List (String × String)) (st : ObjCache) : Prop :=
  (∀ p ∈ st.cache, p.2.objId < st.nextObjId ∧
    ∃ nm, alookup (novOf p.1) varName = some nm ∧
      p.2.conn = { classConn with name := nm }) ∧
  st.cache.Pairwise (fun p q => p.2.objId ≠ q.2.objId)

/-! ### Concrete example data used by the claim theorems and witnesses -/

/-- `Input(name="raw", storageClass="Exposure")`: a scalar input connection. -/
def connScalar : Connection :=
  { role := .input, name := "raw", storageClass := "Exposure" }

/-- The same connection declared with `multiple=True`. -/
def connMulti : Connection :=
  { role := .input, name := "raw", storageClass := "Exposure", multiple := true }

/-- Class body declaring `calexp = Input(name="raw", ...)`. -/
def regScalar : ConnDict := ConnDict.empty.setItem "calexp" connScalar

/-- Class body declaring `calexp = Input(name="raw", ..., multiple=True)`. -/
def regMulti : ConnDict := ConnDict.empty.setItem "calexp" connMulti

/-- Class body declaring `exposure = Input(name="{tmpl}_x", ...)`: a templated
name whose placeholder has no entry in an empty `defaultTemplates`. -/
def regTmpl : ConnDict :=
  ConnDict.empty.setItem "exposure"
    { role := .input, name := "{tmpl}_x", storageClass := "Exposure" }

/-- Class body declaring `exposure = Input(name="{exposure}_x", ...)`: the
placeholder name collides with the attribute name. -/
def regCollide : ConnDict :=
  ConnDict.empty.setItem "exposure"
    { role := .input, name := "{exposure}_x", storageClass := "Exposure" }

/-- The connections class declared by `regScalar` with `dimensions = ()` and
`defaultTemplates = {}`. -/
def clsScalar : PipelineTaskConnectionsClass := mkConnectionsClass regScalar [] (some [])

/-- The connections class declared by `regMulti`. -/
def clsMulti : PipelineTaskConnectionsClass := mkConnectionsClass regMulti [] (some [])

/-- The connections class declared by `regCollide` with
`defaultTemplates = {"exposure": "deep"}`. -/
def clsCollide : PipelineTaskConnectionsClass :=
  mkConnectionsClass regCollide [] (some [("exposure", "deep")])

/-- A connections class with no connections and no `defaultTemplates`:
a configuration bound to it declares no templates. -/
def clsEmpty : PipelineTaskConnectionsClass := mkConnectionsClass ConnDict.empty [] none

/-- A configuration for `clsScalar`/`clsMulti`: the nested `connections`
sub-object holds the synthesized name field at its default. -/
def cfgScalar : TaskConfigInstance := ⟨true, [("calexp", "raw")]⟩

/-- The connections instance built from `clsScalar` and `cfgScalar`. -/
def instScalar : ConnectionsInstance := ⟨clsScalar, cfgScalar, [("calexp", "raw")]⟩

/-- The connections instance built from `clsMulti` and `cfgScalar`. -/
def instMulti : ConnectionsInstance := ⟨clsMulti, cfgScalar, [("calexp", "raw")]⟩

/-- A quantum providing two references for dataset type `raw`. -/
def quantum2 : Quantum := ⟨[("raw", [⟨3⟩, ⟨4⟩])]⟩

/-- A quantum providing exactly one reference for dataset type `raw`. -/
def quantum1 : Quantum := ⟨[("raw", [⟨3⟩])]⟩

/-- A `PipelineTaskConfig` instance bound to `clsEmpty`: its synthesized
`connections` sub-object has no fields at all. -/
def cfgEmptyFull : FullConfig := ⟨true, .mk [] [("connections", .mk [] [])]⟩

/-- An external file loader that does nothing (the `file` branch is opaque to
this core; the claims exercised here queue no file overrides). -/
def loadNoop : FullConfig → String → Except PyErr FullConfig := fun c _ => .ok c

/-- A config object with an int-typed field `f` and a str-typed field `s`. -/
def root7 : ConfigNode :=
  .mk [("f", ⟨.intT, .intVal 0⟩), ("s", ⟨.strT, .strVal "x"⟩)] []

/-- A connections class with one templated connection
`calexp = Input(name="{tmpl}_x")` and `defaultTemplates = {"tmpl": "dflt"}`. -/
def clsW : PipelineTaskConnectionsClass :=
  mkConnectionsClass
    (ConnDict.empty.setItem "calexp"
      { role := .input, name := "{tmpl}_x", storageClass := "Exposure" })
    [] (some [("tmpl", "dflt")])

/-- A configuration for `clsW` in which both the name field of `calexp` and
the template field `tmpl` have been overridden away from their defaults. -/
def cfgW : TaskConfigInstance :=
  ⟨true, [("calexp", "{tmpl}Coadd"), ("tmpl", "deep")]⟩

/-- The connections instance built from `clsW` and `cfgW`: the resolved name
comes from the overridden configuration values. -/
def instW : ConnectionsInstance := ⟨clsW, cfgW, [("calexp", "deepCoadd")]⟩

/-- Name overrides of two distinct instances that resolve to the same name. -/
def novTwo : Nat → List (String × String) := fun _ => [("calexp", "deep")]

/-- The object returned by the first `__get__` access (instance id 1). -/
def o1W : SpecializedConnection := ⟨{ connScalar with name := "deep" }, 0⟩

/-- The cache state after that first access. -/
def st1W : ObjCache := ⟨[(1, o1W)], 1⟩

/-- The object returned by an access from a second instance (id 2). -/
def o2W : SpecializedConnection := ⟨{ connScalar with name := "deep" }, 1⟩

/-- The cache state after both accesses. -/
def st2W : ObjCache := ⟨[(1, o1W), (2, o2W)], 2⟩

/-! ### Association-list lemmas -/

theorem alookup_append {κ α : Type} [DecidableEq κ] (l l' : List (κ × α)) (k : κ) :
    alookup (l ++ l') k =
      match alookup l k with
      | some v => some v
      | none => alookup l' k := by
  induction l with
  | nil => simp [alookup]
  | cons p rest ih =>
    by_cases h : p.1 = k
    · simp [alookup, h]
    · simp [alookup, h, ih]

theorem alookup_mem {κ α : Type} [DecidableEq κ] {l : List (κ × α)} {k : κ} {v : α}
    (h : alookup l k = some v) : (k, v) ∈ l := by
  induction l with
  | nil => simp [alookup] at h
  | cons p rest ih =>
    obtain ⟨a, b⟩ := p
    by_cases hp : a = k
    · subst hp
      simp [alookup] at h
      subst h
      exact List.mem_cons_self _ _
    · simp [alookup, hp] at h
      exact List.mem_cons_of_mem _ (ih h)

theorem alookup_none_iff {κ α : Type} [DecidableEq κ] {l : List (κ × α)} {k : κ} :
    alookup l k = none ↔ k ∉ l.map Prod.fst := by
  induction l with
  | nil => simp [alookup]
  | cons p rest ih =>
    by_cases hp : p.1 = k
    · simp [alookup, hp]
    · simp [alookup, hp, ih]
      intro h
      exact fun hk => hp hk.symm

theorem alookup_of_mem_nodup {κ α : Type} [DecidableEq κ] {l : List (κ × α)}
    (hnd : (l.map Prod.fst).Nodup) {k : κ} {v : α} (hmem : (k, v) ∈ l) :
    alookup l k = some v := by
  induction l with
  | nil => simp at hmem
  | cons p rest ih =>
    simp only [List.map_cons, List.nodup_cons] at hnd
    rcases List.mem_cons.mp hmem with h | h
    · subst h
      simp [alookup]
    · have hne : p.1 ≠ k := by
        intro he
        exact hnd.1 (he ▸ (List.mem_map.mpr ⟨(k, v), h, rfl⟩))
      simp [alookup, hne, ih hnd.2 h]

theorem alookup_pairwise_ne {κ : Type} [DecidableEq κ]
    {l : List (κ × SpecializedConnection)}
    (hp : l.Pairwise (fun p q => p.2.objId ≠ q.2.objId))
    {k1 k2 : κ} {v1 v2 : SpecializedConnection}
    (h1 : alookup l k1 = some v1) (h2 : alookup l k2 = some v2) (hk : k1 ≠ k2) :
    v1.objId ≠ v2.objId := by
  induction l with
  | nil => simp [alookup] at h1
  | cons p rest ih =>
    rcases List.pairwise_cons.mp hp with ⟨hhead, htail⟩
    by_cases hpk1 : p.1 = k1
    · have hk2 : p.1 ≠ k2 := fun he => hk (hpk1 ▸ he ▸ rfl)
      simp [alookup, hpk1] at h1
      simp [alookup, hk2] at h2
      exact h1 ▸ hhead _ (alookup_mem h2)
    · by_cases hpk2 : p.1 = k2
      · simp [alookup, hpk2] at h2
        simp [alookup, hpk1] at h1
        exact fun he => (h2 ▸ hhead _ (alookup_mem h1)) he.symm
      · simp [alookup, hpk1] at h1
        simp [alookup, hpk2] at h2
        exact ih htail h1 h2

theorem mapValsM_lookup {α : Type} {f : String → Except PyErr String}
    {l : List (String × α)} {res : List (String × String)}
    (h : mapValsM f l = .ok res) {k : String} {a : α} (hmem : (k, a) ∈ l) :
    ∃ v, f k = .ok v ∧ alookup res k = some v := by
  induction l generalizing res with
  | nil => simp at hmem
  | cons p rest ih =>
    rcases hf : f p.1 with e | v0
    · simp [mapValsM, hf] at h
    · rcases hr : mapValsM f rest with e | tail
      · simp [mapValsM, hf, hr] at h
      · simp [mapValsM, hf, hr] at h
        subst h
        by_cases hk : p.1 = k
        · exact ⟨v0, hk ▸ hf, by simp [alookup, hk]⟩
        · have hmem' : (k, a) ∈ rest := by
            rcases List.mem_cons.mp hmem with he | h'
            · exact absurd (congrArg Prod.fst he).symm hk
            · exact h'
          rcases ih hr hmem' with ⟨v, hv, hl⟩
          exact ⟨v, hv, by simp [alookup, hk, hl]⟩

theorem alookup_map_overwrite {κ α : Type} [DecidableEq κ]
    (l : List (κ × α)) (k : κ) (v : α) :
    alookup (l.map (fun p => if p.1 = k then (k, v) else p)) k =
      if (alookup l k).isSome then some v else none := by
  induction l with
  | nil => simp [alookup]
  | cons p rest ih =>
    by_cases hp : p.1 = k
    · simp [alookup, hp]
    · simp [alookup, hp, ih]

theorem alookup_map_overwrite_ne {κ α : Type} [DecidableEq κ]
    (l : List (κ × α)) {k k' : κ} (v : α) (hne : k' ≠ k) :
    alookup (l.map (fun p => if p.1 = k then (k, v) else p)) k' = alookup l k' := by
  induction l with
  | nil => simp [alookup]
  | cons p rest ih =>
    by_cases hp : p.1 = k
    · have : k ≠ k' := fun he => hne he.symm
      simp [alookup, hp, this, ih]
    · by_cases hp' : p.1 = k'
      · simp [alookup, hp, hp', hne]
      · simp [alookup, hp, hp', ih]

theorem upsert_alookup_self {κ α : Type} [DecidableEq κ]
    (l : List (κ × α)) (k : κ) (v : α) : alookup (upsert l k v) k = some v := by
  unfold upsert
  by_cases h : (alookup l k).isSome
  · simp [h, alookup_map_overwrite]
  · rw [if_neg h, alookup_append]
    have hnone : alookup l k = none := by
      cases he : alookup l k
      · rfl
      · exact absurd (by simp [he]) h
    simp [hnone, alookup]

theorem upsert_alookup_ne {κ α : Type} [DecidableEq κ]
    (l : List (κ × α)) {k k' : κ} (v : α) (hne : k' ≠ k) :
    alookup (upsert l k v) k' = alookup l k' := by
  unfold upsert
  by_cases h : (alookup l k).isSome
  · simp [h, alookup_map_overwrite_ne _ _ hne]
  · rw [if_neg h, alookup_append]
    have hkk : ¬(k = k') := fun he => hne he.symm
    have hsingle : alookup [(k, v)] k' = none := by simp [alookup, hkk]
    cases he : alookup l k' <;> simp [he, hsingle]

theorem foldl_upsert_alookup_not_mem {α β : Type} (f : String × α → β)
    {l : List (String × α)} (ns0 : List (String × β)) {k : String}
    (h : k ∉ l.map Prod.fst) :
    alookup (l.foldl (fun ns p => upsert ns p.1 (f p)) ns0) k = alookup ns0 k := by
  induction l generalizing ns0 with
  | nil => rfl
  | cons p rest ih =>
    simp only [List.map_cons, List.mem_cons, not_or] at h
    rw [List.foldl_cons, ih (upsert ns0 p.1 (f p)) h.2,
      upsert_alookup_ne ns0 (f p) h.1]

theorem foldl_upsert_alookup_mem {α β : Type} (f : String × α → β)
    {l : List (String × α)} (ns0 : List (String × β))
    (hnd : (l.map Prod.fst).Nodup) {k : String} {a : α} (hmem : (k, a) ∈ l) :
    alookup (l.foldl (fun ns p => upsert ns p.1 (f p)) ns0) k = some (f (k, a)) := by
  induction l generalizing ns0 with
  | nil => simp at hmem
  | cons p rest ih =>
    simp only [List.map_cons, List.nodup_cons] at hnd
    rcases List.mem_cons.mp hmem with he | hmem'
    · subst he
      rw [List.foldl_cons, foldl_upsert_alookup_not_mem _ _ hnd.1,
        upsert_alookup_self]
    · rw [List.foldl_cons]
      exact ih (upsert ns0 p.1 (f p)) hnd.2 hmem'

/-! ### Lemmas about the dotted-path walk -/

theorem setAtPath_congr {path : List String} {root obj : ConfigNode}
    {f g : ConfigNode → Except PyErr ConfigNode}
    (hw : getSub path root = .ok obj) (hfg : f obj = g obj) :
    setAtPath path root f = setAtPath path root g := by
  induction path generalizing root with
  | nil =>
    simp [getSub] at hw
    subst hw
    simpa [setAtPath] using hfg
  | cons a rest ih =>
    cases root with
    | mk fields subs =>
      simp only [getSub] at hw
      cases hs : alookup subs a with
      | none => rw [hs] at hw; exact absurd hw (by simp)
      | some sub =>
        rw [hs] at hw
        simp only [setAtPath, hs, ih hw]

theorem setAtPath_error {path : List String} {root obj : ConfigNode} {e : PyErr}
    {f : ConfigNode → Except PyErr ConfigNode}
    (hw : getSub path root = .ok obj) (hf : f obj = .error e) :
    setAtPath path root f = .error e := by
  induction path generalizing root with
  | nil =>
    simp [getSub] at hw
    subst hw
    simpa [setAtPath] using hf
  | cons a rest ih =>
    cases root with
    | mk fields subs =>
      simp only [getSub] at hw
      cases hs : alookup subs a with
      | none => rw [hs] at hw; exact absurd hw (by simp)
      | some sub =>
        rw [hs] at hw
        simp only [setAtPath, hs, ih hw, Except.map]

/-! ### Lemmas about the `__get__` cache -/

theorem connectionGet_cached {classConn : Connection} {varName : String}
    {nov : List (String × String)} {i : Nat} {st st' : ObjCache}
    {o : SpecializedConnection}
    (h : connectionGet classConn varName nov i st = .ok (o, st')) :
    alookup st'.cache i = some o := by
  unfold connectionGet at h
  cases hn : alookup nov varName with
  | none => rw [hn] at h; exact absurd h (by simp)
  | some nm =>
    rw [hn] at h
    cases hc : alookup st.cache i with
    | some cached =>
      rw [hc] at h
      simp at h
      obtain ⟨ho, hst⟩ := h
      rw [← hst]
      simpa [ho] using hc
    | none =>
      rw [hc] at h
      simp at h
      obtain ⟨ho, hst⟩ := h
      rw [← hst]
      simp only []
      rw [alookup_append, hc, ← ho]
      simp [alookup]

theorem connectionGet_mono {classConn : Connection} {varName : String}
    {nov : List (String × String)} {i j : Nat} {st st' : ObjCache}
    {o w : SpecializedConnection}
    (h : connectionGet classConn varName nov i st = .ok (o, st'))
    (hj : alookup st.cache j = some w) : alookup st'.cache j = some w := by
  unfold connectionGet at h
  cases hn : alookup nov varName with
  | none => rw [hn] at h; exact absurd h (by simp)
  | some nm =>
    rw [hn] at h
    cases hc : alookup st.cache i with
    | some cached =>
      rw [hc] at h
      simp at h
      rw [← h.2]
      exact hj
    | none =>
      rw [hc] at h
      simp at h
      rw [← h.2]
      simp only []
      rw [alookup_append, hj]

theorem reachedFrom_mono {classConn : Connection} {varName : String}
    {novOf : Nat → List (String × String)} {st st' : ObjCache}
    (h : ReachedFrom classConn varName novOf st st') {j : Nat}
    {w : SpecializedConnection} (hj : alookup st.cache j = some w) :
    alookup st'.cache j = some w := by
  induction h with
  | refl => exact hj
  | step _hsteps hget ih => exact connectionGet_mono hget ih

theorem reachedFrom_trans {classConn : Connection} {varName : String}
    {novOf : Nat → List (String × String)} {st st' st'' : ObjCache}
    (h : ReachedFrom classConn varName novOf st st')
    (h' : ReachedFrom classConn varName novOf st' st'') :
    ReachedFrom classConn varName novOf st st'' := by
  induction h' with
  | refl => exact h
  | step hsteps hget ih => exact .step ih hget

theorem connectionGet_inv {classConn : Connection} {varName : String}
    {novOf : Nat → List (String × String)} {i : Nat} {st st' : ObjCache}
    {o : SpecializedConnection}
    (hinv : CacheInv classConn varName novOf st)
    (h : connectionGet classConn varName (novOf i) i st = .ok (o, st')) :
    CacheInv classConn varName novOf st' := by
  unfold connectionGet at h
  cases hn : alookup (novOf i) varName with
  | none => rw [hn] at h; exact absurd h (by simp)
  | some nm =>
    rw [hn] at h
    cases hc : alookup st.cache i with
    | some cached =>
      rw [hc] at h
      simp at h
      rw [← h.2]
      refine ⟨fun p hp => ?_, hinv.2⟩
      obtain ⟨hb, hspec⟩ := hinv.1 p hp
      exact ⟨Nat.lt_succ_of_lt hb, hspec⟩
    | none =>
      rw [hc] at h
      simp at h
      rw [← h.2]
      constructor
      · intro p hp
        rcases List.mem_append.mp hp with hmem | hmem
        · obtain ⟨hb, hspec⟩ := hinv.1 p hmem
          exact ⟨Nat.lt_succ_of_lt hb, hspec⟩
        · simp at hmem
          subst hmem
          exact ⟨Nat.lt_succ_self _, nm, hn, rfl⟩
      · rw [List.pairwise_append]
        refine ⟨hinv.2, List.pairwise_singleton _ _, fun p hp q hq => ?_⟩
        simp at hq
        subst hq
        obtain ⟨hb, _⟩ := hinv.1 p hp
        simp only []
        exact Nat.ne_of_lt hb

theorem reached_inv {classConn : Connection} {varName : String}
    {novOf : Nat → List (String × String)} {st : ObjCache}
    (h : Reached classConn varName novOf st) :
    CacheInv classConn varName novOf st := by
  induction h with
  | refl => exact ⟨by simp [ObjCache.init], by simp [ObjCache.init]⟩
  | step _hsteps hget ih => exact connectionGet_inv ih hget

/-! ### Claim theorems -/

/-- Claim C1.  The claim says a scalar connection resolved against a quantum
with 2 references fails with `ScalarError("calexp", 2)`.  On the code as
written it does not: `buildDatasetRefs` reads `attribute.multi` (config.py
line 210), but the connection dataclasses declare the field `multiple`, so
the very first connection processed raises `AttributeError` — before the
cardinality check can run.  The class, instance and quantum are built through
the full declaration pipeline; the last conjunct shows that with the access
corrected to the declared field `multiple` the promised
`ScalarError("calexp", 2)` does surface. -/
theorem C1_scalar_check_raises_attribute_error :
    connectionsMetaclassNew "FakeConnections" regScalar (some []) (some []) =
      .ok clsScalar ∧
    connectionsInit clsScalar (some cfgScalar) = .ok instScalar ∧
    buildDatasetRefs instScalar quantum2 = .error (.attributeError "multi") ∧
    buildDatasetRefsIntended instScalar quantum2 =
      .error (.scalarError "calexp" 2) :=
  ⟨rfl, rfl, rfl, rfl⟩

/-- Claim C2.  The claim describes the success path of `buildDatasetRefs`
(unwrapped scalar for `multiple=False` with one reference; full ordered lists
for `multiple=True`).  On the code as written no success path exists for any
class with at least one input or output connection: the `attribute.multi`
access raises `AttributeError` first, both for a `multiple=True` connection
with 2 references and for a scalar connection with exactly 1 reference.  The
`buildDatasetRefsIntended` conjuncts show the claimed results appear once the
access is corrected to the declared field `multiple`. -/
theorem C2_success_path_raises_attribute_error :
    connectionsInit clsMulti (some cfgScalar) = .ok instMulti ∧
    buildDatasetRefs instMulti quantum2 = .error (.attributeError "multi") ∧
    buildDatasetRefsIntended instMulti quantum2 =
      .ok (⟨[("calexp", .many [⟨3⟩, ⟨4⟩])], []⟩,
           ⟨[("calexp", .many [3, 4])], []⟩) ∧
    buildDatasetRefs instScalar quantum1 = .error (.attributeError "multi") ∧
    buildDatasetRefsIntended instScalar quantum1 =
      .ok (⟨[("calexp", .single ⟨3⟩)], []⟩, ⟨[("calexp", .single 3)], []⟩) :=
  ⟨rfl, rfl, rfl, rfl, rfl⟩

/-- Claim C3.  The claim says a `defaultTemplates` mapping is required exactly
when some connection name contains a placeholder.  The second conjunct (a
templated name with no `defaultTemplates`) fails as claimed, but the first
conjunct shows the "exactly": a class whose only connection is named `raw` —
no placeholder anywhere — is also rejected with the missing-`defaultTemplates`
TypeError, because line 172 adds the whole `Formatter.parse` tuple to
`allTemplates`, which is therefore non-empty for every non-empty name. -/
theorem C3_untemplated_class_rejected_without_defaults :
    connectionsMetaclassNew "FakeConnections" regScalar (some []) none =
      .error .typeErrorNoDefaultTemplates ∧
    connectionsMetaclassNew "FakeConnections" regTmpl (some []) none =
      .error .typeErrorNoDefaultTemplates :=
  ⟨rfl, rfl⟩

/-- Claim C4.  The claim says declaration fails when `defaultTemplates` keys
are a strict subset of the used placeholders, and when a placeholder collides
with an attribute name.  Both declarations succeed on the code as written:
the checks sit inside `if len(allTemplates) < 0` (config.py line 177), which
can never hold.  First conjunct: placeholder `tmpl` used, `defaultTemplates`
empty (keys a strict subset).  Second conjunct: placeholder `exposure`
collides with the attribute `exposure`. -/
theorem C4_coverage_and_collision_checks_never_run :
    connectionsMetaclassNew "FakeConnections" regTmpl (some []) (some []) =
      .ok (mkConnectionsClass regTmpl [] (some [])) ∧
    connectionsMetaclassNew "FakeConnections" regCollide (some [])
      (some [("exposure", "deep")]) = .ok clsCollide :=
  ⟨rfl, rfl⟩

/-- Claim C5, counterexample.  A configuration bound to a connections class
that declares no templates (here: no connections and no `defaultTemplates` at
all, so the class is even declarable despite the C3 slip) is an instance of
`PipelineTaskConfig`, so the `namesDict` branch of `applyTo` forwards instead
of raising: the queued template-substitution override is applied and `applyTo`
returns normally, contradicting the claimed ValidationError. -/
theorem C5_counterexample_templateless_config_not_rejected :
    connectionsMetaclassNew "FakeConnections" ConnDict.empty (some []) none =
      .ok clsEmpty ∧
    clsEmpty.defaultTemplates = none ∧
    pipelineTaskConfigMetaNew "FakeConfig" (some (.connections clsEmpty)) =
      .ok [("connections", .connectionsClassRef)] ∧
    cfgEmptyFull.isPipelineTaskConfig = true ∧
    (ConfigOverrides.new.addDatasetNameSubstitution []).applyTo loadNoop
      cfgEmptyFull = (.ok cfgEmptyFull, ConfigOverrides.new.addDatasetNameSubstitution []) :=
  ⟨rfl, rfl, rfl, rfl, rfl⟩

/-- Claim C8, counterexample.  Because the placeholder/attribute-collision
check in the connections metaclass is dead code, a connections class whose
`defaultTemplates` key `exposure` equals the attribute name `exposure` is
declarable; for a configuration class bound to it, the synthesized nested
namespace's field `exposure` defaults to the template default `deep`, not to
the descriptor's declared name, contradicting the claim's first part. -/
theorem C8_counterexample_template_key_collision :
    connectionsMetaclassNew "FakeConnections" regCollide (some [])
      (some [("exposure", "deep")]) = .ok clsCollide ∧
    alookup clsCollide.allConnections "exposure" =
      some { role := .input, name := "{exposure}_x", storageClass := "Exposure" } ∧
    pipelineTaskConfigMetaNew "FakeConfig" (some (.connections clsCollide)) =
      .ok [("exposure", .strField "deep"), ("connections", .connectionsClassRef)] ∧
    NamespaceEntry.strField "deep" ≠ NamespaceEntry.strField "{exposure}_x" :=
  ⟨rfl, rfl, rfl, by decide⟩

/-- Claim C5 (amended).  The `namesDict` branch of `applyTo` tests only
whether the configuration is an instance of `PipelineTaskConfig`: a
non-instance fails with the ValidationError-kind `pexExceptions.RuntimeError`,
and any instance — whether or not its connections class declares templates —
has the substitution mapping forwarded to the configuration's
`formatTemplateNames` entry point.  Stated for a queue holding exactly the
one queued substitution override. -/
theorem C5_amended_substitution_requires_pipeline_config
    (load : FullConfig → String → Except PyErr FullConfig)
    (config : FullConfig) (d : List (String × String)) :
    (ConfigOverrides.new.addDatasetNameSubstitution d).applyTo load config =
      ((if config.isPipelineTaskConfig then formatTemplateNames config d
        else .error .namesDictOnNonPipelineConfig), ⟨[.namesDict d]⟩) := by
  unfold ConfigOverrides.applyTo ConfigOverrides.addDatasetNameSubstitution
    ConfigOverrides.new
  simp only [List.nil_append]
  congr 1
  show (applyOne load config (.namesDict d)).bind (applyList load []) = _
  by_cases h : config.isPipelineTaskConfig
  · simp only [applyOne, h, if_true]
    cases formatTemplateNames config d <;> simp [Except.bind, applyList]
  · simp [applyOne, h, Except.bind]

/-- Claim C10.  `applyTo` never mutates the override queue: the applier state
returned by the call (normally or after a failure anywhere in the replay) is
exactly the state before the call, the replay consumed exactly the queued
list, and replay composes over concatenation — so applying the same object
again, or to a different configuration, replays every queued entry in the
original append order. -/
theorem C10_applyTo_never_mutates_queue
    (load : FullConfig → String → Except PyErr FullConfig)
    (self : ConfigOverrides) (config : FullConfig) :
    ((self.applyTo load config).2 = self) ∧
    ((self.applyTo load config).1 = applyList load self.overrides config) ∧
    (∀ (q1 q2 : List Override) (c : FullConfig),
      applyList load (q1 ++ q2) c =
        (applyList load q1 c).bind (applyList load q2)) := by
  refine ⟨rfl, rfl, fun q1 q2 => ?_⟩
  induction q1 with
  | nil => intro c; simp [applyList, Except.bind]
  | cons ov rest ih =>
    intro c
    show (applyOne load c ov).bind (applyList load (rest ++ q2)) =
      ((applyOne load c ov).bind (applyList load rest)).bind (applyList load q2)
    cases applyOne load c ov with
    | error e => simp [Except.bind]
    | ok c' => simp [Except.bind, ih c']

/-- Claim C7.  In the value-override step of `applyTo`, for a leaf field
reachable by the dotted path: a textual value aimed at a non-textual field is
parsed as a literal and the parsed value is assigned (the override becomes a
plain assignment of the parsed value); a textual value aimed at a textual
field is assigned verbatim, no coercion attempted; and a textual value that
does not parse for a non-textual field fails with the
OverrideParseError-kind error naming the offending text. -/
theorem C7_value_override_coercion
    (root : ConfigNode) (fieldPath s : String)
    (fields : List (String × ConfigField)) (subs : List (String × ConfigNode))
    (dtype : CType) (cur : CVal)
    (hwalk : getSub (splitDots fieldPath).dropLast root = .ok (.mk fields subs))
    (hleaf : alookup fields ((splitDots fieldPath).getLastD "") =
      some ⟨dtype, cur⟩) :
    (∀ w : CVal, dtype ≠ .strT → literalEval s = some w →
      applyValueOverride root fieldPath (.strVal s) =
        setAtPath (splitDots fieldPath).dropLast root
          (fun obj => setattrField obj ((splitDots fieldPath).getLastD "") w)) ∧
    (dtype = .strT →
      applyValueOverride root fieldPath (.strVal s) =
        setAtPath (splitDots fieldPath).dropLast root
          (fun obj =>
            setattrField obj ((splitDots fieldPath).getLastD "") (.strVal s))) ∧
    (dtype ≠ .strT → literalEval s = none →
      applyValueOverride root fieldPath (.strVal s) = .error (.parseError s)) := by
  refine ⟨fun w hne hl => ?_, fun hstr => ?_, fun hne hl => ?_⟩
  · unfold applyValueOverride
    refine setAtPath_congr hwalk ?_
    simp only [hleaf]
    simp [coerceValue, hne, hl, Except.bind]
    rfl
  · unfold applyValueOverride
    refine setAtPath_congr hwalk ?_
    subst hstr
    simp only [hleaf]
    simp [coerceValue, Except.bind]
    rfl
  · unfold applyValueOverride
    refine setAtPath_error hwalk ?_
    simp only [hleaf]
    simp [coerceValue, hne, hl, Except.bind]
    rfl

/-- Claim C7, witness: on a config with an int field `f` and a str field `s`,
the text `5` assigned to `f` becomes the integer `5`, the same text assigned
to `s` stays the string `5`, and `not-a-number` assigned to `f` fails naming
the text. -/
theorem C7_witness :
    (applyValueOverride root7 "f" (.strVal "5") =
      setAtPath [] root7 (fun obj => setattrField obj "f" (.intVal 5))) ∧
    (applyValueOverride root7 "s" (.strVal "5") =
      setAtPath [] root7 (fun obj => setattrField obj "s" (.strVal "5"))) ∧
    (applyValueOverride root7 "f" (.strVal "not-a-number") =
      .error (.parseError "not-a-number")) ∧
    (applyValueOverride root7 "f" (.strVal "5") =
      .ok (.mk [("f", ⟨.intT, .intVal 5⟩), ("s", ⟨.strT, .strVal "x"⟩)] [])) ∧
    (applyValueOverride root7 "s" (.strVal "5") =
      .ok (.mk [("f", ⟨.intT, .intVal 0⟩), ("s", ⟨.strT, .strVal "5"⟩)] [])) :=
  ⟨(C7_value_override_coercion root7 "f" "5"
      [("f", ⟨.intT, .intVal 0⟩), ("s", ⟨.strT, .strVal "x"⟩)] []
      .intT (.intVal 0) rfl rfl).1 (.intVal 5) (by decide) rfl,
   (C7_value_override_coercion root7 "s" "5"
      [("f", ⟨.intT, .intVal 0⟩), ("s", ⟨.strT, .strVal "x"⟩)] []
      .strT (.strVal "x") rfl rfl).2.1 rfl,
   (C7_value_override_coercion root7 "f" "not-a-number"
      [("f", ⟨.intT, .intVal 0⟩), ("s", ⟨.strT, .strVal "x"⟩)] []
      .intT (.intVal 0) rfl rfl).2.2 (by decide) rfl,
   rfl, rfl⟩

/-- Claim C8 (amended).  For a configuration class declared bound to a
connections class, provided no `defaultTemplates` key collides with a
connection attribute name (the invariant the connections metaclass was meant
to enforce — the counterexample shows a collision makes the template default
win) and the reserved key `connections` is not used as a field name: the
synthesized nested namespace maps every `allConnections` attribute to a
str-typed field defaulting to the descriptor's declared name, every
`defaultTemplates` key to a str-typed field defaulting to the template's
default, and stores the connections class under `connections`; declaration
without a connections class fails with the DefinitionError-kind NameError and
with a non-connections class fails with the ValidationError-kind
ValueError. -/
theorem C8_amended_config_schema
    (name : String) (cls : PipelineTaskConnectionsClass)
    (hname : name ≠ "NewPipelineTaskConfig")
    (hnodup : (cls.allConnections.map Prod.fst).Nodup)
    (htnodup : ((cls.defaultTemplates.getD []).map Prod.fst).Nodup)
    (hdisj : ∀ k ∈ (cls.defaultTemplates.getD []).map Prod.fst,
      alookup cls.allConnections k = none)
    (hnc1 : alookup cls.allConnections "connections" = none)
    (hnc2 : alookup (cls.defaultTemplates.getD []) "connections" = none) :
    pipelineTaskConfigMetaNew name none = .error .nameErrorNoConnectionsClass ∧
    pipelineTaskConfigMetaNew name (some .notAConnectionsClass) =
      .error .valueErrorNotConnectionsClass ∧
    ∃ ns, pipelineTaskConfigMetaNew name (some (.connections cls)) = .ok ns ∧
      (∀ a c, (a, c) ∈ cls.allConnections →
        alookup ns a = some (.strField c.name)) ∧
      (∀ k d, (k, d) ∈ cls.defaultTemplates.getD [] →
        alookup ns k = some (.strField d)) ∧
      alookup ns "connections" = some .connectionsClassRef := by
  refine ⟨by simp [pipelineTaskConfigMetaNew, hname],
    by simp [pipelineTaskConfigMetaNew, hname], ?_⟩
  unfold pipelineTaskConfigMetaNew
  rw [if_neg hname]
  refine ⟨_, rfl, ?_, ?_, upsert_alookup_self _ _ _⟩
  · intro a c hmem
    have hamem : a ∈ cls.allConnections.map Prod.fst :=
      List.mem_map.mpr ⟨(a, c), hmem, rfl⟩
    have hane : a ≠ "connections" := fun he =>
      (alookup_none_iff.mp hnc1) (he ▸ hamem)
    rw [upsert_alookup_ne _ _ hane]
    have hbase :
        alookup (cls.allConnections.foldl
          (fun ns p => upsert ns p.1 (NamespaceEntry.strField p.2.name)) []) a =
          some (.strField c.name) :=
      foldl_upsert_alookup_mem (fun p => NamespaceEntry.strField p.2.name) []
        hnodup hmem
    cases hdt : cls.defaultTemplates with
    | none => exact hbase
    | some ts =>
      have hts : a ∉ ts.map Prod.fst := by
        intro hin
        have := hdisj a (by rw [hdt]; exact hin)
        rw [alookup_of_mem_nodup hnodup hmem] at this
        exact absurd this (by simp)
      rw [foldl_upsert_alookup_not_mem _ _ hts]
      exact hbase
  · intro k d hmem
    cases hdt : cls.defaultTemplates with
    | none => rw [hdt] at hmem; simp at hmem
    | some ts =>
      rw [hdt] at hmem
      simp only [Option.getD_some] at hmem
      have hkmem : k ∈ ts.map Prod.fst := List.mem_map.mpr ⟨(k, d), hmem, rfl⟩
      have hkne : k ≠ "connections" := by
        intro he
        have := alookup_none_iff.mp (by rw [hdt] at hnc2; exact hnc2)
        exact this (he ▸ hkmem)
      rw [upsert_alookup_ne _ _ hkne]
      have htnd : (ts.map Prod.fst).Nodup := by rw [hdt] at htnodup; exact htnodup
      exact foldl_upsert_alookup_mem (fun p => NamespaceEntry.strField p.2) _
        htnd hmem

/-- Claim C8, witness: the config class bound to `clsScalar` (one connection
`calexp` named `raw`, empty `defaultTemplates`) synthesizes the namespace
with the field `calexp` defaulting to `raw`, and the error cases fire. -/
theorem C8_amended_witness :
    ("FakeConfig" : String) ≠ "NewPipelineTaskConfig" ∧
    pipelineTaskConfigMetaNew "FakeConfig" none =
      .error .nameErrorNoConnectionsClass ∧
    (∃ ns, pipelineTaskConfigMetaNew "FakeConfig" (some (.connections clsScalar)) =
        .ok ns ∧
      (∀ a c, (a, c) ∈ clsScalar.allConnections →
        alookup ns a = some (.strField c.name)) ∧
      (∀ k d, (k, d) ∈ clsScalar.defaultTemplates.getD [] →
        alookup ns k = some (.strField d)) ∧
      alookup ns "connections" = some .connectionsClassRef) := by
  have h := C8_amended_config_schema "FakeConfig" clsScalar (by decide)
    (by decide) (by decide) (by decide) (by decide) (by decide)
  exact ⟨by decide, h.1, h.2.2⟩

/-- Claim C9.  For every connections instance successfully constructed from a
bound configuration: `templateValues` maps every `defaultTemplates` key to
the value read from the configuration's `connections` sub-object, and
`nameOverrides` maps every `allConnections` attribute to the result of
formatting the *current* name-field value read from the same sub-object (not
the descriptor's compile-time default) with those template values. -/
theorem C9_nameOverrides_use_config_values
    (cls : PipelineTaskConnectionsClass) (cfg : TaskConfigInstance)
    (inst : ConnectionsInstance)
    (h : connectionsInit cls (some cfg) = .ok inst) :
    ∃ tv, templateValuesOf cls cfg = .ok tv ∧
      (∀ k d, (k, d) ∈ cls.defaultTemplates.getD [] →
        ∃ v, cfgGetattr cfg k = .ok v ∧ alookup tv k = some v) ∧
      (∀ n c, (n, c) ∈ cls.allConnections →
        ∃ raw fv, cfgGetattr cfg n = .ok raw ∧ formatMap raw tv = .ok fv ∧
          alookup inst.nameOverrides n = some fv) := by
  simp only [connectionsInit] at h
  split at h
  next => simp at h
  next =>
    split at h
    next e htv => simp at h
    next tv htv =>
      split at h
      next e hnov => simp at h
      next nov hnov =>
        simp only [Except.ok.injEq] at h
        refine ⟨tv, htv, ?_, ?_⟩
        · intro k d hmem
          exact mapValsM_lookup htv hmem
        · intro n c hmem
          rcases mapValsM_lookup hnov hmem with ⟨fv, hfn, hlook⟩
          unfold nameResolver at hfn
          rcases hg : cfgGetattr cfg n with e | raw
          · rw [hg] at hfn; simp at hfn
          · rw [hg] at hfn
            refine ⟨raw, fv, rfl, hfn, ?_⟩
            rw [← h]
            exact hlook

/-- Claim C9, witness: for `clsW` (connection `calexp` declared with name
template `{tmpl}_x`, `defaultTemplates = {"tmpl": "dflt"}`) and a
configuration overriding the name field to `{tmpl}Coadd` and the template
field to `deep`, the resolved name is `deepCoadd` — both reads coming from
the configuration, not from the declared defaults. -/
theorem C9_witness :
    connectionsInit clsW (some cfgW) = .ok instW ∧
    instW.nameOverrides = [("calexp", "deepCoadd")] ∧
    ∃ tv, templateValuesOf clsW cfgW = .ok tv ∧
      (∀ k d, (k, d) ∈ clsW.defaultTemplates.getD [] →
        ∃ v, cfgGetattr cfgW k = .ok v ∧ alookup tv k = some v) ∧
      (∀ n c, (n, c) ∈ clsW.allConnections →
        ∃ raw fv, cfgGetattr cfgW n = .ok raw ∧ formatMap raw tv = .ok fv ∧
          alookup instW.nameOverrides n = some fv) :=
  ⟨rfl, rfl, C9_nameOverrides_use_config_values clsW cfgW instW rfl⟩

/-- Claim C6.  Starting from a reachable `_objCache` state: an access returns
the specialization of the class-level connection whose fields are the
class-level descriptor's with `name` replaced by the accessing instance's
resolved override; a later access for the same instance (with arbitrary
interleaved accesses from other instances) returns the identical cached
object; and an access from a distinct instance returns an object with a
distinct identity, whatever the resolved names are. -/
theorem C6_specialized_descriptor_identity
    (classConn : Connection) (varName : String)
    (novOf : Nat → List (String × String))
    (st st1 st2 st3 : ObjCache) (o1 o2 : SpecializedConnection) (i1 i2 : Nat)
    (hre : Reached classConn varName novOf st)
    (h1 : connectionGet classConn varName (novOf i1) i1 st = .ok (o1, st1))
    (hmid : ReachedFrom classConn varName novOf st1 st2)
    (h2 : connectionGet classConn varName (novOf i2) i2 st2 = .ok (o2, st3)) :
    (∃ nm, alookup (novOf i1) varName = some nm ∧
      o1.conn = { classConn with name := nm }) ∧
    (i2 = i1 → o2 = o1) ∧
    (i2 ≠ i1 → o2.objId ≠ o1.objId) := by
  have hinv := reached_inv hre
  have hre1 : Reached classConn varName novOf st1 := ReachedFrom.step hre h1
  have hre2 : Reached classConn varName novOf st2 := reachedFrom_trans hre1 hmid
  have hinv2 := reached_inv hre2
  have hc1 := connectionGet_cached h1
  have hc2 : alookup st2.cache i1 = some o1 := reachedFrom_mono hmid hc1
  unfold connectionGet at h1 h2
  cases hn1 : alookup (novOf i1) varName with
  | none => rw [hn1] at h1; exact absurd h1 (by simp)
  | some nm1 =>
    rw [hn1] at h1
    refine ⟨?_, ?_, ?_⟩
    · cases hcache : alookup st.cache i1 with
      | some cached =>
        rw [hcache] at h1
        simp at h1
        obtain ⟨ho, _⟩ := h1
        rcases hinv.1 (i1, cached) (alookup_mem hcache) with ⟨_, nm', hnm', hconn⟩
        rw [hn1] at hnm'
        injection hnm' with hnm'
        exact ⟨nm1, rfl, by rw [← ho, hconn, hnm']⟩
      | none =>
        rw [hcache] at h1
        simp at h1
        obtain ⟨ho, _⟩ := h1
        exact ⟨nm1, rfl, by rw [← ho]⟩
    · intro he
      subst he
      rw [hn1, hc2] at h2
      simp at h2
      exact h2.1.symm
    · intro hne
      cases hn2 : alookup (novOf i2) varName with
      | none => rw [hn2] at h2; exact absurd h2 (by simp)
      | some nm2 =>
        rw [hn2] at h2
        cases hcache2 : alookup st2.cache i2 with
        | some cached =>
          rw [hcache2] at h2
          simp at h2
          obtain ⟨ho2, _⟩ := h2
          rw [← ho2]
          exact alookup_pairwise_ne hinv2.2 hcache2 hc2 hne
        | none =>
          rw [hcache2] at h2
          simp at h2
          obtain ⟨ho2, _⟩ := h2
          obtain ⟨hb, _⟩ := hinv2.1 (i1, o1) (alookup_mem hc2)
          rw [← ho2]
          exact (Nat.ne_of_lt hb).symm

/-- Claim C6, witness: from the freshly created empty cache, an access for the
instance with id 1 returns the specialization named `deep` with identity 0; a
subsequent access for the distinct instance with id 2 — whose resolved name
is the same `deep` — returns a distinct object (identity 1), while repeating
the access for id 1 returns the identical cached object. -/
theorem C6_witness :
    connectionGet connScalar "calexp" (novTwo 1) 1 ObjCache.init =
      .ok (o1W, st1W) ∧
    connectionGet connScalar "calexp" (novTwo 2) 2 st1W = .ok (o2W, st2W) ∧
    connectionGet connScalar "calexp" (novTwo 1) 1 st1W =
      .ok (o1W, ⟨[(1, o1W)], 2⟩) ∧
    novTwo 1 = novTwo 2 ∧
    (∃ nm, alookup (novTwo 1) "calexp" = some nm ∧
      o1W.conn = { connScalar with name := nm }) ∧
    o2W.objId ≠ o1W.objId := by
  have h := C6_specialized_descriptor_identity connScalar "calexp" novTwo
    ObjCache.init st1W st1W st2W o1W o2W 1 2
    (ReachedFrom.refl _) rfl (ReachedFrom.refl _) rfl
  exact ⟨rfl, rfl, rfl, rfl, h.1, h.2.2 (by decide)⟩

end PipeBase
